import Mathlib

/-!
Verification of the role-management client (React/Next.js frontend).

Shallow embedding of the client-side view-model code:
* `RoleListing` component and its `fetchRoleSkillMatch` handler (role-page).
* `RolePage` component and its `fetchRoles` handler.
* `RoleForm` with `formatDateToISOWithoutZ`, `onSubmit` and the
  skill-catalog pre-population effect.
* `DataTableToolbar` rendering of searchable/filterable column controls.
* `DatePickerWithRange` synchronization effect.

JSX trees are modelled by the data the components compute (lists of rendered
controls, toast records, request records); JavaScript exceptions thrown inside
`then` callbacks and caught by a trailing `catch` are modelled with `Except`.
-/

/-- A `(skill_id, skill_name)` record as delivered by the API. -/
structure Skill where
  skill_id : Nat
  skill_name : String
deriving Repr, DecidableEq

/-- The three-way partition returned by `/api/staff/role-skills-match`
(`SkillMatchType` in `@/types`). -/
structure SkillMatchType where
  active : List Skill
  in_progress : List Skill
  unverified : List Skill
deriving Repr, DecidableEq

/-- Body of the skill-match API response: `{ match: SkillMatchType }`.
The TypeScript field is named `match`, a reserved word in Lean, hence
`matchData`. -/
structure SkillMatchAPIResponse where
  matchData : SkillMatchType
deriving Repr, DecidableEq

/-- The derived client-only projection `SkillInfo` rendered by `SkillMatch`. -/
structure SkillInfo where
  skillObtained : List String
  skillMissing : List String
deriving Repr, DecidableEq

/-- The success-path transformation inside `fetchRoleSkillMatch`
(role-page component, lines 41-47):
`obtained = apiData.match.active.concat(apiData.match.in_progress)`;
`skillObtained = obtained.map(skill => skill.skill_name)`;
`skillMissing = apiData.match.unverified.map(skill => skill.skill_name)`. -/
def computeSkillInfo (m : SkillMatchType) : SkillInfo :=
  let obtained := m.active ++ m.in_progress
  { skillObtained := obtained.map (fun skill => skill.skill_name)
    skillMissing := m.unverified.map (fun skill => skill.skill_name) }

/-- Claim C1: for every skill-match response, `skillObtained` equals the
`skill_name` projection of `active ++ in_progress` (in that order) and
`skillMissing` equals the `skill_name` projection of `unverified`; and
whenever the input lists are pairwise disjoint on skill names, no name
appears in both output lists. The projection equalities hold for every
response; only the no-overlap conclusion is conditioned on the server
partition being disjoint. -/
theorem c1_display_skill_info (m : SkillMatchType) :
    (computeSkillInfo m).skillObtained
        = (m.active ++ m.in_progress).map Skill.skill_name ∧
    (computeSkillInfo m).skillMissing = m.unverified.map Skill.skill_name ∧
    ((∀ s, s ∈ (m.active ++ m.in_progress).map Skill.skill_name →
        s ∉ m.unverified.map Skill.skill_name) →
      ∀ s, s ∈ (computeSkillInfo m).skillObtained →
        s ∉ (computeSkillInfo m).skillMissing) := by
  refine ⟨rfl, rfl, ?_⟩
  intro hdisj s hs
  exact hdisj s hs

/-- Claim C1 witness: the concrete scenario
`{match: {active: [{skill_id:1, skill_name:"SQL"}], in_progress: [],
unverified: [{skill_id:2, skill_name:"Go"}]}}` yields
`skillObtained = ["SQL"]` and `skillMissing = ["Go"]`, and the disjoint
input keeps `"SQL"` out of `skillMissing`. -/
theorem c1_display_skill_info_witness :
    (computeSkillInfo
        { active := [{ skill_id := 1, skill_name := "SQL" }]
          in_progress := []
          unverified := [{ skill_id := 2, skill_name := "Go" }] }).skillObtained
      = ["SQL"] ∧
    (computeSkillInfo
        { active := [{ skill_id := 1, skill_name := "SQL" }]
          in_progress := []
          unverified := [{ skill_id := 2, skill_name := "Go" }] }).skillMissing
      = ["Go"] ∧
    "SQL" ∉ (computeSkillInfo
        { active := [{ skill_id := 1, skill_name := "SQL" }]
          in_progress := []
          unverified := [{ skill_id := 2, skill_name := "Go" }] }).skillMissing := by
  have h := c1_display_skill_info
    { active := [{ skill_id := 1, skill_name := "SQL" }]
      in_progress := []
      unverified := [{ skill_id := 2, skill_name := "Go" }] }
  exact ⟨h.1.trans (by decide), h.2.1.trans (by decide),
    h.2.2 (by decide) "SQL" (by decide)⟩

/-- A JavaScript `Date`, viewed through the UTC accessors the code uses
(`getUTCFullYear`, `getUTCMonth` (0-based), `getUTCDate`, `getUTCHours`,
`getUTCMinutes`, `getUTCSeconds`). -/
structure JSDate where
  utcFullYear : Nat
  utcMonth : Nat
  utcDate : Nat
  utcHours : Nat
  utcMinutes : Nat
  utcSeconds : Nat
deriving Repr, DecidableEq

/-- One decimal digit rendered as a character. -/
def digitToChar (d : Nat) : Char := Char.ofNat (48 + d)

/-- Base-10 digits of a natural number, most significant first: the digit
sequence JavaScript number-to-string conversion produces for a non-negative
integer (as in the template literal of `formatDateToISOWithoutZ` and in
`String(...)` coercions). -/
def natToDigits (n : Nat) : List Nat :=
  if _ : n < 10 then [n] else natToDigits (n / 10) ++ [n % 10]
termination_by n
decreasing_by exact Nat.div_lt_self (by omega) (by omega)

/-- JavaScript decimal rendering of a non-negative integer. -/
def natToString (n : Nat) : String := String.mk ((natToDigits n).map digitToChar)

/-- JavaScript `String.prototype.padStart(targetLength, "0")` restricted to a
single-character pad, as used in `formatDateToISOWithoutZ`. -/
def padStart (s : String) (targetLength : Nat) (padChar : Char) : String :=
  if s.length < targetLength then
    String.mk (List.replicate (targetLength - s.length) padChar) ++ s
  else s

/-- `formatDateToISOWithoutZ` from RoleForm.tsx (lines 73-83): renders the
date's UTC components as `YYYY-MM-DDTHH:mm:ss` with two-digit zero-padded
month/day/hour/minute/second and no zone suffix. -/
def formatDateToISOWithoutZ (date : JSDate) : String :=
  natToString date.utcFullYear ++ "-" ++
  padStart (natToString (date.utcMonth + 1)) 2 '0' ++ "-" ++
  padStart (natToString date.utcDate) 2 '0' ++ "T" ++
  padStart (natToString date.utcHours) 2 '0' ++ ":" ++
  padStart (natToString date.utcMinutes) 2 '0' ++ ":" ++
  padStart (natToString date.utcSeconds) 2 '0'

/-- Decidable check that a string has the exact shape `YYYY-MM-DDTHH:mm:ss`:
nineteen characters, decimal digits everywhere except the two hyphens, the
`T` and the two colons. -/
def matchesISOPattern (s : String) : Bool :=
  match s.data with
  | [y1, y2, y3, y4, a1, m1, m2, a2, d1, d2, t1, h1, h2, b1, n1, n2, b2, e1, e2] =>
    y1.isDigit && y2.isDigit && y3.isDigit && y4.isDigit &&
    a1 = '-' && m1.isDigit && m2.isDigit &&
    a2 = '-' && d1.isDigit && d2.isDigit &&
    t1 = 'T' && h1.isDigit && h2.isDigit &&
    b1 = ':' && n1.isDigit && n2.isDigit &&
    b2 = ':' && e1.isDigit && e2.isDigit
  | _ => false

theorem natToDigits_lt_ten (n : Nat) : ∀ d ∈ natToDigits n, d < 10 := by
  induction n using Nat.strong_induction_on with
  | _ n ih =>
    rw [natToDigits]
    by_cases h : n < 10
    · simp [h]
    · simp only [h, dite_false, List.mem_append, List.mem_singleton]
      intro d hd
      rcases hd with hd | hd
      · exact ih (n / 10) (Nat.div_lt_self (by omega) (by omega)) d hd
      · subst hd; exact Nat.mod_lt _ (by omega)

theorem natToDigits_length (e : Nat) :
    ∀ n, 10 ^ e ≤ n → n < 10 ^ (e + 1) → (natToDigits n).length = e + 1 := by
  induction e with
  | zero =>
    intro n h1 h2
    rw [natToDigits]
    simp at h2
    simp [h2]
  | succ e ih =>
    intro n h1 h2
    have hn : ¬ n < 10 := by
      have : 10 ≤ 10 ^ (e + 1) := by
        calc 10 = 10 ^ 1 := by norm_num
        _ ≤ 10 ^ (e + 1) := Nat.pow_le_pow_right (by omega) (by omega)
      omega
    rw [natToDigits]
    simp only [hn, dite_false, List.length_append, List.length_singleton]
    have hlo : 10 ^ e ≤ n / 10 := by
      rw [Nat.le_div_iff_mul_le (by omega)]
      calc 10 ^ e * 10 = 10 ^ (e + 1) := by rw [Nat.pow_succ]
      _ ≤ n := h1
    have hhi : n / 10 < 10 ^ (e + 1) := by
      rw [Nat.div_lt_iff_lt_mul (by omega)]
      calc n < 10 ^ (e + 1 + 1) := h2
      _ = 10 ^ (e + 1) * 10 := by rw [Nat.pow_succ]
    rw [ih (n / 10) hlo hhi]

theorem digitToChar_isDigit (d : Nat) (h : d < 10) : (digitToChar d).isDigit = true := by
  interval_cases d <;> decide

theorem string_data_append (a b : String) : (a ++ b).data = a.data ++ b.data := rfl

theorem natToString_data (n : Nat) :
    (natToString n).data = (natToDigits n).map digitToChar := rfl

theorem padStart_two_spec (n : Nat) (h : n < 100) :
    ∃ c1 c2, (padStart (natToString n) 2 '0').data = [c1, c2] ∧
      c1.isDigit = true ∧ c2.isDigit = true := by
  by_cases h10 : n < 10
  · have hl : natToDigits n = [n] := by rw [natToDigits]; simp [h10]
    have hdata : (natToString n).data = [digitToChar n] := by
      rw [natToString_data, hl]; rfl
    have hlen : (natToString n).length = 1 := by
      show (natToString n).data.length = 1
      rw [hdata]; rfl
    refine ⟨'0', digitToChar n, ?_, by decide, digitToChar_isDigit n h10⟩
    rw [padStart]
    simp only [hlen]
    rw [if_pos (by omega)]
    rw [string_data_append, hdata]
    rfl
  · have hlen2 : (natToDigits n).length = 2 := by
      have := natToDigits_length 1 n (by omega) (by norm_num; omega)
      simpa using this
    obtain ⟨d1, d2, hd⟩ := List.length_eq_two.mp hlen2
    have hd1 : d1 < 10 := natToDigits_lt_ten n d1 (by rw [hd]; simp)
    have hd2 : d2 < 10 := natToDigits_lt_ten n d2 (by rw [hd]; simp)
    have hdata : (natToString n).data = [digitToChar d1, digitToChar d2] := by
      rw [natToString_data, hd]; rfl
    have hlen : (natToString n).length = 2 := by
      show (natToString n).data.length = 2
      rw [hdata]; rfl
    refine ⟨digitToChar d1, digitToChar d2, ?_,
      digitToChar_isDigit d1 hd1, digitToChar_isDigit d2 hd2⟩
    rw [padStart]
    simp only [hlen]
    rw [if_neg (by omega)]
    exact hdata

theorem natToString_four_digits (y : Nat) (h1 : 1000 ≤ y) (h2 : y < 10000) :
    ∃ c1 c2 c3 c4, (natToString y).data = [c1, c2, c3, c4] ∧
      c1.isDigit = true ∧ c2.isDigit = true ∧ c3.isDigit = true ∧
      c4.isDigit = true := by
  have hlen4 : (natToDigits y).length = 4 := by
    have := natToDigits_length 3 y (by norm_num; omega) (by norm_num; omega)
    simpa using this
  rcases hds : natToDigits y with _ | ⟨d1, rest⟩
  · rw [hds] at hlen4; simp at hlen4
  · rw [hds] at hlen4
    simp at hlen4
    obtain ⟨d2, d3, d4, hrest⟩ := List.length_eq_three.mp hlen4
    subst hrest
    have hin : ∀ d ∈ natToDigits y, d < 10 := natToDigits_lt_ten y
    rw [hds] at hin
    refine ⟨digitToChar d1, digitToChar d2, digitToChar d3, digitToChar d4, ?_,
      digitToChar_isDigit d1 (hin d1 (by simp)),
      digitToChar_isDigit d2 (hin d2 (by simp)),
      digitToChar_isDigit d3 (hin d3 (by simp)),
      digitToChar_isDigit d4 (hin d4 (by simp))⟩
    rw [natToString_data, hds]
    rfl

/-- A JSON value as it appears in the serialized request body (strings,
numbers, and JavaScript NaN, which `parseInt` can produce). -/
inductive JsonValue where
  | str : String → JsonValue
  | num : Int → JsonValue
  | nan : JsonValue
deriving Repr, DecidableEq

/-- JavaScript `String(x)` on a possibly-undefined string value:
`String(undefined)` is the text `"undefined"`. -/
def jsString : Option String → String
  | some s => s
  | none => "undefined"

/-- JavaScript `x || ""` on a possibly-undefined string followed by
`String(...)`: undefined and the empty string collapse to `""`. -/
def jsStringOrEmpty : Option String → String
  | some s => s
  | none => ""

def parseDigitsAcc (acc : Nat) : List Char → Nat
  | [] => acc
  | c :: cs => parseDigitsAcc (acc * 10 + (c.toNat - 48)) cs

/-- JavaScript `parseInt(s, 10)`: skip leading spaces, read an optional
sign, then the longest prefix of decimal digits; `none` models `NaN`. -/
def parseInt10 (s : String) : Option Int :=
  let core : List Char → Option Nat := fun l =>
    let ds := l.takeWhile Char.isDigit
    if ds.isEmpty then none else some (parseDigitsAcc 0 ds)
  match s.data.dropWhile (fun c => c = ' ') with
  | '-' :: rest => (core rest).map (fun n => -(n : Int))
  | '+' :: rest => (core rest).map (fun n => (n : Int))
  | rest => (core rest).map (fun n => (n : Int))

def jsonOfParseInt : Option Int → JsonValue
  | some n => JsonValue.num n
  | none => JsonValue.nan

/-- An HTTP request as issued by the client's `fetch` calls: URL, method,
header list and, for POST, the serialized JSON object (field order kept). -/
structure HttpRequest where
  url : String
  method : String
  headers : List (String × String)
  body : Option (List (String × JsonValue))
deriving Repr, DecidableEq

/-- A `{value, label}` option of the skill multi-select. -/
structure SelectOption where
  value : String
  label : String
deriving Repr, DecidableEq

/-- `RoleFormValues`: the form's field values at submission time. Combobox
fields (`roleName`, `roleManager`) hold the selected option's string value;
`listingId` is carried opaquely since `onSubmit` passes it through
unchanged; `skills` is the multi-select value. -/
structure RoleFormValues where
  roleName : String
  listingId : JsonValue
  roleDescription : String
  roleManager : String
  location : String
  departments : String
  skills : List SelectOption
  startDate : JSDate

/-- The `transformedData` object literal built by `onSubmit`
(RoleForm.tsx lines 86-95), fields in source order. -/
def transformedData (staffId : Nat) (data : RoleFormValues) :
    List (String × JsonValue) :=
  [("role_listing_id", data.listingId),
   ("role_id", jsonOfParseInt (parseInt10 data.roleName)),
   ("role_listing_desc", JsonValue.str data.roleDescription),
   ("role_listing_source", jsonOfParseInt (parseInt10 data.roleManager)),
   ("role_listing_open", JsonValue.str (formatDateToISOWithoutZ data.startDate)),
   ("role_listing_creator", JsonValue.num staffId),
   ("role_department", JsonValue.str data.departments),
   ("role_location", JsonValue.str data.location)]

/-- The requests issued by one run of `onSubmit` (RoleForm.tsx lines
97-104): a single POST to `/api/role/role_listing` with a
`Content-Type` and a `role` header and the transformed body. -/
def onSubmitRequests (userRole : Option String) (staffId : Nat)
    (data : RoleFormValues) : List HttpRequest :=
  [{ url := "/api/role/role_listing"
     method := "POST"
     headers := [("Content-Type", "application/json"), ("role", jsString userRole)]
     body := some (transformedData staffId data) }]

/-- Claim C2: every valid submission issues exactly one request, it is a
POST, its body's `role_listing_open` field is the start date rendered by
`formatDateToISOWithoutZ`, and that string matches `YYYY-MM-DDTHH:mm:ss`
exactly — every character is a decimal digit or one of the separators
`-`, `T`, `:`, so there is no trailing `Z` or UTC-zone suffix. The
hypotheses are the ranges JavaScript `Date` UTC accessors guarantee
(month 0-11, day 1-31, hour 0-23, minute/second 0-59) plus a four-digit
year. -/
theorem c2_single_post_iso_date (userRole : Option String) (staffId : Nat)
    (v : RoleFormValues)
    (hy1 : 1000 ≤ v.startDate.utcFullYear) (hy2 : v.startDate.utcFullYear < 10000)
    (hmo : v.startDate.utcMonth < 12) (hda : v.startDate.utcDate ≤ 31)
    (hho : v.startDate.utcHours < 24) (hmi : v.startDate.utcMinutes < 60)
    (hse : v.startDate.utcSeconds < 60) :
    (onSubmitRequests userRole staffId v).length = 1 ∧
    (∀ r ∈ onSubmitRequests userRole staffId v, r.method = "POST" ∧
      ∃ b, r.body = some b ∧
        ("role_listing_open",
          JsonValue.str (formatDateToISOWithoutZ v.startDate)) ∈ b) ∧
    matchesISOPattern (formatDateToISOWithoutZ v.startDate) = true ∧
    ∀ c ∈ (formatDateToISOWithoutZ v.startDate).data,
      c.isDigit = true ∨ c = '-' ∨ c = 'T' ∨ c = ':' := by
  obtain ⟨y1, y2, y3, y4, hy, hy1d, hy2d, hy3d, hy4d⟩ :=
    natToString_four_digits v.startDate.utcFullYear hy1 hy2
  obtain ⟨m1, m2, hmv, hm1, hm2⟩ := padStart_two_spec (v.startDate.utcMonth + 1) (by omega)
  obtain ⟨d1, d2, hdv, hd1, hd2⟩ := padStart_two_spec v.startDate.utcDate (by omega)
  obtain ⟨h1, h2, hhv, hh1, hh2⟩ := padStart_two_spec v.startDate.utcHours (by omega)
  obtain ⟨n1, n2, hnv, hn1, hn2⟩ := padStart_two_spec v.startDate.utcMinutes (by omega)
  obtain ⟨e1, e2, hev, he1, he2⟩ := padStart_two_spec v.startDate.utcSeconds (by omega)
  have hdata : (formatDateToISOWithoutZ v.startDate).data =
      [y1, y2, y3, y4, '-', m1, m2, '-', d1, d2, 'T',
        h1, h2, ':', n1, n2, ':', e1, e2] := by
    simp only [formatDateToISOWithoutZ, string_data_append]
    rw [hy, hmv, hdv, hhv, hnv, hev]
    rfl
  refine ⟨rfl, ?_, ?_, ?_⟩
  · intro r hr
    simp only [onSubmitRequests, List.mem_singleton] at hr
    subst hr
    exact ⟨rfl, transformedData staffId v, rfl, by simp [transformedData]⟩
  · simp only [matchesISOPattern]
    rw [hdata]
    simp [hy1d, hy2d, hy3d, hy4d, hm1, hm2, hd1, hd2, hh1, hh2, hn1, hn2, he1, he2]
  · intro c hc
    rw [hdata] at hc
    fin_cases hc <;> simp [*]

/-- Concrete start date 2023-10-05 09:07:03 UTC (`getUTCMonth` is 9 for
October). -/
def exampleDate : JSDate :=
  { utcFullYear := 2023, utcMonth := 9, utcDate := 5
    utcHours := 9, utcMinutes := 7, utcSeconds := 3 }

/-- Concrete valid form values used to instantiate claim C2. -/
def exampleForm : RoleFormValues :=
  { roleName := "2", listingId := JsonValue.num 101
    roleDescription := "desc", roleManager := "140001"
    location := "Singapore", departments := "IT"
    skills := [], startDate := exampleDate }

/-- Claim C2 witness: at the concrete form values, one POST is issued and
the rendered date string is exactly `2023-10-05T09:07:03`, matching the
pattern. -/
theorem c2_single_post_iso_date_witness :
    (onSubmitRequests (some "hr") 140001 exampleForm).length = 1 ∧
    matchesISOPattern (formatDateToISOWithoutZ exampleForm.startDate) = true ∧
    formatDateToISOWithoutZ exampleForm.startDate = "2023-10-05T09:07:03" := by
  have h := c2_single_post_iso_date (some "hr") 140001 exampleForm
    (by decide) (by decide) (by decide) (by decide) (by decide) (by decide) (by decide)
  refine ⟨h.1, h.2.2.1, String.ext ?_⟩
  simp [exampleForm, exampleDate, formatDateToISOWithoutZ, natToString,
    natToDigits, padStart, digitToChar]
  decide

/-- The request issued by `fetchRoles` in the role page (part of the
role-detail view model, source lines 34-40): GET `/api/role/role_listings_info`
with `user-token` and `role` headers built from the session
(`userToken || ""`, `String(userRole || "")`). -/
def fetchRolesRequest (userToken userRole : Option String) : HttpRequest :=
  { url := "/api/role/role_listings_info"
    method := "GET"
    headers := [("user-token", jsStringOrEmpty userToken),
                ("role", jsStringOrEmpty userRole)]
    body := none }

/-- The request issued by `fetchRoleSkillMatch` (RoleListing component,
source lines 25-31): GET `/api/staff/role-skills-match/{staffId}/{roleId}`
with NO headers — the `user-token`/`role` header block is commented out
in the source. -/
def fetchRoleSkillMatchRequest (staffId roleid : Nat) : HttpRequest :=
  { url := "/api/staff/role-skills-match/" ++ natToString staffId ++ "/" ++
      natToString roleid
    method := "GET"
    headers := []
    body := none }

/-- Claim C3 counterexample: the role-skills-match fetch for
`staffId = 7, roleId = 3` carries no `role` header at all (its header
block is commented out), so not every client request carries one. -/
theorem c3_no_role_header_counterexample :
    ¬ ∃ v, ("role", v) ∈ (fetchRoleSkillMatchRequest 7 3).headers := by
  rintro ⟨v, hv⟩
  simp [fetchRoleSkillMatchRequest] at hv

/-- Claim C3 (amended): the create-role POST and the `role_listings_info`
fetch each carry a `role` header derived from the signed-in user's claimed
role, while the role-skills-match fetch sends no headers at all. -/
theorem c3_role_header_amended (userRole userToken : Option String)
    (staffId roleid : Nat) (v : RoleFormValues) :
    (∀ r ∈ onSubmitRequests userRole staffId v,
      ("role", jsString userRole) ∈ r.headers) ∧
    ("role", jsStringOrEmpty userRole) ∈ (fetchRolesRequest userToken userRole).headers ∧
    (fetchRoleSkillMatchRequest staffId roleid).headers = [] := by
  refine ⟨?_, by simp [fetchRolesRequest], rfl⟩
  intro r hr
  simp only [onSubmitRequests, List.mem_singleton] at hr
  subst hr
  simp

/-- Claim C3 witness: at concrete session values the create-role POST and
the listings-info fetch carry `role: hr`, and the skill-match fetch has an
empty header list. -/
theorem c3_role_header_amended_witness :
    (∃ r, r ∈ onSubmitRequests (some "hr") 7 exampleForm ∧
      ("role", "hr") ∈ r.headers) ∧
    ("role", "hr") ∈ (fetchRolesRequest (some "tok") (some "hr")).headers ∧
    (fetchRoleSkillMatchRequest 7 3).headers = [] := by
  have h := c3_role_header_amended (some "hr") (some "tok") 7 3 exampleForm
  refine ⟨⟨{ url := "/api/role/role_listing"
             method := "POST"
             headers := [("Content-Type", "application/json"), ("role", "hr")]
             body := some (transformedData 7 exampleForm) },
    by simp [onSubmitRequests, jsString], ?_⟩, h.2.1, h.2.2⟩
  exact h.1 _ (by simp [onSubmitRequests, jsString])

/-- A `fetch` `Response` as the `then` callbacks observe it: HTTP status,
status text, and the parsed JSON body when `res.json()` succeeds
(`none` models a JSON parse rejection). -/
structure FetchResponse (α : Type) where
  status : Nat
  statusText : String
  jsonBody : Option α
deriving Repr, DecidableEq

/-- `Response.ok`: status in the 2xx range. -/
def FetchResponse.ok (r : FetchResponse α) : Bool :=
  200 ≤ r.status && r.status < 300

/-- A notification record as passed to `toast(...)`; `variant` is
`some "destructive"` for the error toast and absent for the success
toast. -/
structure Toast where
  variant : Option String
  title : String
  description : String
deriving Repr, DecidableEq

/-- The response handling of `onSubmit` (RoleForm.tsx lines 105-125): a
non-2xx status throws `Error(res.statusText)`, a parse failure rejects
with message `parseErr`, and the `catch` turns either into the
destructive `"Error creating role!"` toast with the error's message; a
2xx response that parses yields the success toast (whose description is
the `formattedDate` constant). The handler returns the form values
untouched — nothing in it resets the form. -/
def onSubmitHandleResponse (formattedDate parseErr : String)
    (formValues : RoleFormValues) (res : FetchResponse Unit) :
    Toast × RoleFormValues :=
  if res.ok then
    match res.jsonBody with
    | some _ =>
      ({ variant := none, title := "Role Successfully Created!"
         description := formattedDate }, formValues)
    | none =>
      ({ variant := some "destructive", title := "Error creating role!"
         description := parseErr }, formValues)
  else
    ({ variant := some "destructive", title := "Error creating role!"
       description := res.statusText }, formValues)

/-- Claim C4: a non-2xx create-role response produces the destructive
toast titled `"Error creating role!"` whose description is the response's
status text, and the form's field values are returned unchanged. -/
theorem c4_error_toast_preserves_form (formattedDate parseErr : String)
    (v : RoleFormValues) (res : FetchResponse Unit)
    (h : res.ok = false) :
    onSubmitHandleResponse formattedDate parseErr v res =
      ({ variant := some "destructive", title := "Error creating role!"
         description := res.statusText }, v) := by
  simp [onSubmitHandleResponse, h]

/-- Claim C4 witness: an HTTP 500 response yields the destructive
`"Error creating role!"` toast carrying `"Internal Server Error"`, with
the form values preserved. -/
theorem c4_error_toast_preserves_form_witness :
    onSubmitHandleResponse "today" "parse error" exampleForm
        { status := 500, statusText := "Internal Server Error", jsonBody := none } =
      ({ variant := some "destructive", title := "Error creating role!"
         description := "Internal Server Error" }, exampleForm) :=
  c4_error_toast_preserves_form "today" "parse error" exampleForm
    { status := 500, statusText := "Internal Server Error", jsonBody := none }
    (by decide)

/-- Result of a read-side `fetch` promise chain as seen by its final
`then`/`catch`: the parsed JSON of an OK response, or the message of the
caught error (a network failure, the `Error("Network error")` thrown on a
non-2xx status, or an exception thrown while processing). -/
inductive FetchOutcome (α : Type) where
  | success : α → FetchOutcome α
  | failure : String → FetchOutcome α
deriving Repr, DecidableEq

/-- The `then`-chain prefix shared by both read fetches (source lines
32-37 and 41-46 of the two components): `if (!res.ok) throw new
Error("Network error"); return res.json()`. A parse rejection carries
`parseErr`. -/
def promiseChainOutcome (parseErr : String) (res : FetchResponse α) :
    FetchOutcome α :=
  if res.ok then
    match res.jsonBody with
    | some a => FetchOutcome.success a
    | none => FetchOutcome.failure parseErr
  else FetchOutcome.failure "Network error"

/-- `PageData`: the normalized display shape the role page stores. -/
structure PageData where
  roleid : Nat
  roleName : String
  roleDescription : String
  skillsRequired : List String
  roleDepartment : String
  roleLocation : String
  roleListingDesc : String
deriving Repr, DecidableEq

/-- State of the `RoleListing` component: the `roleInfo` slice (seeded
from props) and the `skillInfo` slice, initially `undefined`. -/
structure RoleListingState where
  roleInfo : PageData
  skillInfo : Option SkillInfo
deriving Repr, DecidableEq

/-- Resolution of `fetchRoleSkillMatch` (RoleListing component, lines
24-64): on success `setSkillInfo` commits the transformed slice; on any
failure the `catch` logs `"Error fetching role details:"` with the error
and leaves the state untouched. The function returns the new state and
the console log entries; its totality reflects that no error escapes the
handler. -/
def fetchRoleSkillMatchResolve (st : RoleListingState)
    (r : FetchOutcome SkillMatchAPIResponse) : RoleListingState × List String :=
  match r with
  | FetchOutcome.success apiData =>
    ({ st with skillInfo := some (computeSkillInfo apiData.matchData) }, [])
  | FetchOutcome.failure err =>
    (st, ["Error fetching role details: " ++ err])

/-- What the skill-match area of the `RoleListing` JSX shows (lines
76-80): the loading placeholder while `skillInfo` is undefined,
otherwise the `SkillMatch` view of the slice. -/
inductive RoleListingView where
  | loadingPlaceholder : RoleListingView
  | skillMatchView : SkillInfo → RoleListingView
deriving Repr, DecidableEq

def renderRoleListing (st : RoleListingState) : RoleListingView :=
  match st.skillInfo with
  | none => RoleListingView.loadingPlaceholder
  | some si => RoleListingView.skillMatchView si

/-- `SpecificRoleInfo`: one entry of the `role_listings_info` response. -/
structure SpecificRoleInfo where
  role_name : String
  role_desc : String
  skills : List Skill
  role_department : String
  role_location : String
  role_listing_desc : String
deriving Repr, DecidableEq

/-- The `role_listings_info` response object: numeric role-listing ids
mapped to their info records. -/
def RoleAPIResponse : Type := List (Nat × SpecificRoleInfo)

/-- The success-callback body of `fetchRoles` (RolePage, lines 47-61):
indexes the response object with the route's `roleid`. In JavaScript a
missing key makes `roleListingData` undefined and the first field access
throws a TypeError, modelled as `Except.error`; otherwise the normalized
`PageData` is produced. -/
def processRoleAPIResponse (roleid : Nat) (apiData : RoleAPIResponse) :
    Except String PageData :=
  match List.lookup roleid apiData with
  | none => Except.error "TypeError: roleListingData is undefined"
  | some role => Except.ok
      { roleid := roleid
        roleName := role.role_name
        roleDescription := role.role_desc
        skillsRequired := role.skills.map (fun skill => skill.skill_name)
        roleDepartment := role.role_department
        roleLocation := role.role_location
        roleListingDesc := role.role_listing_desc }

/-- State of the `RolePage` component: the `data` slice, initially
`undefined`. -/
structure RolePageState where
  data : Option PageData
deriving Repr, DecidableEq

/-- Resolution of `fetchRoles` (RolePage, lines 33-65): a success whose
processing completes commits `setData`; a fetch failure or an exception
thrown inside the success callback reaches the same `catch`, which logs
and leaves the state untouched. -/
def fetchRolesResolve (roleid : Nat) (st : RolePageState)
    (r : FetchOutcome RoleAPIResponse) : RolePageState × List String :=
  match r with
  | FetchOutcome.success apiData =>
    match processRoleAPIResponse roleid apiData with
    | Except.ok pd => ({ st with data := some pd }, [])
    | Except.error e => (st, ["Error fetching role details: " ++ e])
  | FetchOutcome.failure err =>
    (st, ["Error fetching role details: " ++ err])

/-- What the `RolePage` JSX shows (lines 69-73): the loading placeholder
while `data` is undefined, otherwise the `RoleListing` child. -/
inductive RolePageView where
  | loadingPlaceholder : RolePageView
  | roleListingView : PageData → RolePageView
deriving Repr, DecidableEq

def renderRolePage (st : RolePageState) : RolePageView :=
  match st.data with
  | none => RolePageView.loadingPlaceholder
  | some d => RolePageView.roleListingView d

/-- Claim C5: when a read-side fetch fails — a non-2xx status (which the
shared `then` turns into `Error("Network error")`) or any error thrown
during processing — the error is caught and logged, the state slice is
left unchanged (in particular `skillInfo` stays undefined), and the page
keeps rendering its loading placeholder; the handler returns normally,
so no error propagates. -/
theorem c5_read_fetch_errors_absorbed (st1 : RoleListingState)
    (st2 : RolePageState) (roleid : Nat) (err parseErr : String)
    (res1 : FetchResponse SkillMatchAPIResponse)
    (res2 : FetchResponse RoleAPIResponse)
    (h1 : st1.skillInfo = none) (h2 : st2.data = none)
    (hres1 : res1.ok = false) (hres2 : res2.ok = false) :
    fetchRoleSkillMatchResolve st1 (promiseChainOutcome parseErr res1) =
      (st1, ["Error fetching role details: Network error"]) ∧
    fetchRoleSkillMatchResolve st1 (FetchOutcome.failure err) =
      (st1, ["Error fetching role details: " ++ err]) ∧
    renderRoleListing (fetchRoleSkillMatchResolve st1 (FetchOutcome.failure err)).1 =
      RoleListingView.loadingPlaceholder ∧
    fetchRolesResolve roleid st2 (promiseChainOutcome parseErr res2) =
      (st2, ["Error fetching role details: Network error"]) ∧
    fetchRolesResolve roleid st2 (FetchOutcome.failure err) =
      (st2, ["Error fetching role details: " ++ err]) ∧
    renderRolePage (fetchRolesResolve roleid st2 (FetchOutcome.failure err)).1 =
      RolePageView.loadingPlaceholder := by
  refine ⟨?_, rfl, ?_, ?_, rfl, ?_⟩
  · simp [promiseChainOutcome, hres1, fetchRoleSkillMatchResolve]
  · simp [fetchRoleSkillMatchResolve, renderRoleListing, h1]
  · simp [promiseChainOutcome, hres2, fetchRolesResolve]
  · simp [fetchRolesResolve, renderRolePage, h2]

/-- Concrete `PageData` used to instantiate the view-model claims. -/
def examplePageData : PageData :=
  { roleid := 3, roleName := "Engineer", roleDescription := "desc"
    skillsRequired := ["SQL"], roleDepartment := "IT"
    roleLocation := "Singapore", roleListingDesc := "listing" }

/-- Claim C5 witness: a concrete failed fetch on each page leaves the
initial state in place and the loading placeholder rendered. -/
theorem c5_read_fetch_errors_absorbed_witness :
    fetchRoleSkillMatchResolve { roleInfo := examplePageData, skillInfo := none }
        (FetchOutcome.failure "Network error") =
      ({ roleInfo := examplePageData, skillInfo := none },
        ["Error fetching role details: Network error"]) ∧
    renderRoleListing (fetchRoleSkillMatchResolve
        { roleInfo := examplePageData, skillInfo := none }
        (FetchOutcome.failure "Network error")).1 =
      RoleListingView.loadingPlaceholder ∧
    fetchRolesResolve 3 { data := none } (FetchOutcome.failure "Network error") =
      ({ data := none }, ["Error fetching role details: Network error"]) ∧
    renderRolePage (fetchRolesResolve 3 { data := none }
        (FetchOutcome.failure "Network error")).1 =
      RolePageView.loadingPlaceholder := by
  have h := c5_read_fetch_errors_absorbed
    { roleInfo := examplePageData, skillInfo := none } { data := none }
    3 "Network error" "parse"
    { status := 500, statusText := "Internal Server Error", jsonBody := none }
    { status := 500, statusText := "Internal Server Error", jsonBody := none }
    rfl rfl (by decide) (by decide)
  exact ⟨h.2.1, h.2.2.1, h.2.2.2.2.1, h.2.2.2.2.2⟩

/-- Claim C10: when the `role_listings_info` response has no entry for the
requested `roleid`, the resulting TypeError is caught by the `catch`
branch: it is only logged, the page state is not updated at all, and the
page keeps rendering its loading placeholder. -/
theorem c10_missing_roleid_key_absorbed (st : RolePageState) (roleid : Nat)
    (apiData : RoleAPIResponse)
    (hkey : List.lookup roleid apiData = none) (hinit : st.data = none) :
    fetchRolesResolve roleid st (FetchOutcome.success apiData) =
      (st, ["Error fetching role details: TypeError: roleListingData is undefined"]) ∧
    renderRolePage (fetchRolesResolve roleid st (FetchOutcome.success apiData)).1 =
      RolePageView.loadingPlaceholder := by
  constructor
  · simp [fetchRolesResolve, processRoleAPIResponse, hkey]
  · simp [fetchRolesResolve, processRoleAPIResponse, hkey, renderRolePage, hinit]

/-- Claim C10 witness: an empty response object and `roleid = 3` leave the
state untouched and the placeholder rendered, logging the TypeError. -/
theorem c10_missing_roleid_key_absorbed_witness :
    fetchRolesResolve 3 { data := none } (FetchOutcome.success ([] : RoleAPIResponse)) =
      ({ data := none },
        ["Error fetching role details: TypeError: roleListingData is undefined"]) ∧
    renderRolePage (fetchRolesResolve 3 { data := none }
        (FetchOutcome.success ([] : RoleAPIResponse))).1 =
      RolePageView.loadingPlaceholder :=
  c10_missing_roleid_key_absorbed { data := none } 3 ([] : RoleAPIResponse) rfl rfl

/-- A column of a `@tanstack/react-table` table, identified by its id. -/
structure TableColumn where
  id : String
deriving Repr, DecidableEq

/-- The table handed to `DataTableToolbar`, reduced to its column set. -/
structure TableModel where
  columns : List TableColumn
deriving Repr, DecidableEq

/-- `table.getColumn(id)`: the column with that id, or undefined. -/
def getColumn (t : TableModel) (id : String) : Option TableColumn :=
  t.columns.find? (fun c => c.id == id)

/-- A `DataTableSearchableColumn` configuration entry. -/
structure DataTableSearchableColumn where
  id : String
  title : String
deriving Repr, DecidableEq

/-- A `DataTableFilterableColumn` configuration entry (its `options` are
passed through to the filter control and do not affect which controls
render). -/
structure DataTableFilterableColumn where
  id : String
  title : String
deriving Repr, DecidableEq

/-- A control the toolbar renders, tagged with the configured column id
it is bound to. -/
inductive ToolbarControl where
  | searchInput : String → ToolbarControl
  | facetedFilter : String → ToolbarControl
deriving Repr, DecidableEq

def ToolbarControl.columnId : ToolbarControl → String
  | ToolbarControl.searchInput i => i
  | ToolbarControl.facetedFilter i => i

/-- The controls `DataTableToolbar` renders (source lines 116-150): each
configured column maps to `table.getColumn(column.id ? String(column.id)
: "") && <control>`; a JSX `false` renders nothing, hence `filterMap`
keeps exactly the entries whose `getColumn` lookup finds a column. -/
def dataTableToolbarControls (t : TableModel)
    (searchableColumns : List DataTableSearchableColumn)
    (filterableColumns : List DataTableFilterableColumn) :
    List ToolbarControl :=
  (searchableColumns.filterMap (fun column =>
    match getColumn t (if column.id ≠ "" then column.id else "") with
    | some _ => some (ToolbarControl.searchInput column.id)
    | none => none)) ++
  (filterableColumns.filterMap (fun column =>
    match getColumn t (if column.id ≠ "" then column.id else "") with
    | some _ => some (ToolbarControl.facetedFilter column.id)
    | none => none))

theorem getColumn_some (t : TableModel) (id : String) (c : TableColumn)
    (h : getColumn t id = some c) : c ∈ t.columns ∧ c.id = id := by
  refine ⟨List.mem_of_find?_eq_some h, ?_⟩
  have := List.find?_some h
  simpa using this

/-- Claim C6: for every configuration and table, each control the toolbar
renders is bound to a column id the table actually has; configured ids
absent from the table are skipped (and the render function is total, so
no crash). -/
theorem c6_toolbar_skips_missing_columns (t : TableModel)
    (searchableColumns : List DataTableSearchableColumn)
    (filterableColumns : List DataTableFilterableColumn) :
    ∀ ctrl ∈ dataTableToolbarControls t searchableColumns filterableColumns,
      ∃ c ∈ t.columns, c.id = ctrl.columnId := by
  intro ctrl hmem
  simp only [dataTableToolbarControls, List.mem_append, List.mem_filterMap] at hmem
  rcases hmem with ⟨column, _, heq⟩ | ⟨column, _, heq⟩ <;>
  · rcases hcol : getColumn t (if column.id ≠ "" then column.id else "") with _ | c <;>
      rw [hcol] at heq
    · exact absurd heq (by simp)
    · obtain ⟨hcmem, hcid⟩ := getColumn_some _ _ _ hcol
      refine ⟨c, hcmem, ?_⟩
      cases heq
      by_cases hid : column.id = "" <;> simp [hid] at hcid <;>
        simp [ToolbarControl.columnId, hcid, hid]

/-- Claim C6 witness: with table columns `roleName` and `skillRequired`,
a searchable configuration naming `roleName` and a missing id, and a
filterable configuration naming `skillRequired` and a missing id, exactly
the two existing columns get controls, and the rendered search input is
bound to an existing column. -/
theorem c6_toolbar_skips_missing_columns_witness :
    dataTableToolbarControls
        { columns := [{ id := "roleName" }, { id := "skillRequired" }] }
        [{ id := "roleName", title := "Role" },
          { id := "missing", title := "Missing" }]
        [{ id := "skillRequired", title := "Skills" },
          { id := "alsoMissing", title := "Gone" }] =
      [ToolbarControl.searchInput "roleName",
        ToolbarControl.facetedFilter "skillRequired"] ∧
    ∃ c ∈ ({ columns := [{ id := "roleName" }, { id := "skillRequired" }] }
        : TableModel).columns,
      c.id = (ToolbarControl.searchInput "roleName").columnId := by
  refine ⟨by decide, ?_⟩
  exact c6_toolbar_skips_missing_columns
    { columns := [{ id := "roleName" }, { id := "skillRequired" }] }
    [{ id := "roleName", title := "Role" }, { id := "missing", title := "Missing" }]
    [{ id := "skillRequired", title := "Skills" }, { id := "alsoMissing", title := "Gone" }]
    (ToolbarControl.searchInput "roleName") (by decide)

/-- The `role_skills` response (`RoleSkillAPIResponse` in `@/types`); the
optional chaining `roleSkillsData.role_skills?.map` in the source means
the field may be absent. -/
structure RoleSkillAPIResponse where
  role_skills : Option (List Skill)
deriving Repr, DecidableEq

/-- The skill pre-population effect of `RoleForm` (lines 148-167): when
both `roleSkillsData` and `allSkills` are present and `role_skills` is
defined, it computes `associatedSkillIds`, filters `allSkills` to those
ids, and sets the skill state plus the multi-select value
(`{value: skill_id.toString(), label: skill_name}`); otherwise it commits
nothing (`none`). -/
def skillPrepopulation (roleSkillsData : Option RoleSkillAPIResponse)
    (allSkills : Option (List Skill)) :
    Option (List Skill × List SelectOption) :=
  match roleSkillsData, allSkills with
  | some rsd, some all =>
    match rsd.role_skills with
    | some rskills =>
      let associatedSkillIds := rskills.map (fun rs => rs.skill_id)
      let filteredSkills :=
        all.filter (fun skill => associatedSkillIds.contains skill.skill_id)
      some (filteredSkills,
        filteredSkills.map (fun skill =>
          { value := natToString skill.skill_id, label := skill.skill_name }))
    | none => none
  | _, _ => none

/-- Claim C7: the skill-catalog-filter computation is a pure function, so
recomputing on the same `(roleSkillsData, allSkills)` pair yields the
same result; that result is `allSkills` restricted, in `allSkills` order
(a sublist), to the skill ids present in `role_skills`, paired with the
`{value, label}` projection of that same filtered list. -/
theorem c7_skill_filter_idempotent (rsd : RoleSkillAPIResponse)
    (allSkills rskills : List Skill)
    (h : rsd.role_skills = some rskills) :
    skillPrepopulation (some rsd) (some allSkills) =
      skillPrepopulation (some rsd) (some allSkills) ∧
    skillPrepopulation (some rsd) (some allSkills) =
      some (allSkills.filter (fun skill =>
          (rskills.map (fun rs => rs.skill_id)).contains skill.skill_id),
        (allSkills.filter (fun skill =>
          (rskills.map (fun rs => rs.skill_id)).contains skill.skill_id)).map
          (fun skill =>
            { value := natToString skill.skill_id, label := skill.skill_name })) ∧
    (allSkills.filter (fun skill =>
      (rskills.map (fun rs => rs.skill_id)).contains skill.skill_id)).Sublist
        allSkills := by
  refine ⟨rfl, ?_, List.filter_sublist allSkills⟩
  simp [skillPrepopulation, h]

/-- The concrete role-skill association `[Go(2), SQL(1)]` used to
instantiate claim C7. -/
def exampleRoleSkills : RoleSkillAPIResponse :=
  { role_skills := some [{ skill_id := 2, skill_name := "Go" },
      { skill_id := 1, skill_name := "SQL" }] }

/-- The concrete skill catalog `[SQL(1), Go(2), React(5)]` used to
instantiate claim C7. -/
def exampleCatalog : List Skill :=
  [{ skill_id := 1, skill_name := "SQL" },
   { skill_id := 2, skill_name := "Go" },
   { skill_id := 5, skill_name := "React" }]

/-- Claim C7 witness: for the catalog `[SQL(1), Go(2), React(5)]` and
`role_skills = [Go(2), SQL(1)]`, the computation yields the catalog-order
filtered list `[SQL(1), Go(2)]` and its `{value, label}` projection. -/
theorem c7_skill_filter_idempotent_witness :
    skillPrepopulation (some exampleRoleSkills) (some exampleCatalog) =
      some ([{ skill_id := 1, skill_name := "SQL" },
        { skill_id := 2, skill_name := "Go" }],
        [{ value := "1", label := "SQL" }, { value := "2", label := "Go" }]) := by
  have h := c7_skill_filter_idempotent exampleRoleSkills exampleCatalog
    [{ skill_id := 2, skill_name := "Go" }, { skill_id := 1, skill_name := "SQL" }]
    rfl
  have e1 : natToString 1 = "1" := by
    apply String.ext; simp [natToString, natToDigits, digitToChar]
  have e2 : natToString 2 = "2" := by
    apply String.ext; simp [natToString, natToDigits, digitToChar]
  refine h.2.1.trans ?_
  simp [exampleCatalog, e1, e2]

/-- A `react-day-picker` `DateRange`; the TypeScript fields `from` and
`to` are Lean keywords, hence `rangeFrom`/`rangeTo`; both are optional. -/
structure DateRange where
  rangeFrom : Option JSDate
  rangeTo : Option JSDate
deriving Repr, DecidableEq

/-- Internal state of `DatePickerWithRange`: the `date` useState slice. -/
structure DatePickerState where
  date : Option DateRange
deriving Repr, DecidableEq

/-- The synchronization effect of `DatePickerWithRange` (lines 26-28):
`React.useEffect(() => { setDate(value); }, [value])` — on every external
`value` change after mount the internal state is overwritten with it. -/
def syncEffect (value : Option DateRange) (_st : DatePickerState) :
    DatePickerState :=
  { date := value }

/-- The trigger-button label ternary (lines 50-61): placeholder without a
`from` date, a single date without a `to` date, otherwise the full
range. -/
inductive DateButtonLabel where
  | pickADate : DateButtonLabel
  | singleDate : JSDate → DateButtonLabel
  | fullRange : JSDate → JSDate → DateButtonLabel
deriving Repr, DecidableEq

def displayLabel (st : DatePickerState) : DateButtonLabel :=
  match st.date with
  | none => DateButtonLabel.pickADate
  | some dr =>
    match dr.rangeFrom with
    | none => DateButtonLabel.pickADate
    | some f =>
      match dr.rangeTo with
      | none => DateButtonLabel.singleDate f
      | some t => DateButtonLabel.fullRange f t

/-- Claim C8: after any external value update, the synchronization effect
sets the internal date state equal to the new value regardless of the
prior internal state (no user interaction involved), so the displayed
label is exactly the label of the supplied value. -/
theorem c8_date_picker_sync (value : Option DateRange)
    (st st' : DatePickerState) :
    (syncEffect value st).date = value ∧
    syncEffect value st = syncEffect value st' ∧
    displayLabel (syncEffect value st) = displayLabel { date := value } :=
  ⟨rfl, rfl, rfl⟩

/-- Claim C9: the create-role body consists of exactly the eight listed
fields in source order; `skills` never appears, and the body does not
depend on the form's `skills` value at all; `role_id` and
`role_listing_source` are the base-10 `parseInt` of the `roleName` and
`roleManager` form values. -/
theorem c9_post_body_fields (userRole : Option String) (staffId : Nat)
    (v : RoleFormValues) :
    (transformedData staffId v).map Prod.fst =
      ["role_listing_id", "role_id", "role_listing_desc",
        "role_listing_source", "role_listing_open", "role_listing_creator",
        "role_department", "role_location"] ∧
    (onSubmitRequests userRole staffId v).map HttpRequest.body =
      [some (transformedData staffId v)] ∧
    "skills" ∉ (transformedData staffId v).map Prod.fst ∧
    (∀ s : List SelectOption,
      transformedData staffId { v with skills := s } =
        transformedData staffId v) ∧
    List.lookup "role_id" (transformedData staffId v) =
      some (jsonOfParseInt (parseInt10 v.roleName)) ∧
    List.lookup "role_listing_source" (transformedData staffId v) =
      some (jsonOfParseInt (parseInt10 v.roleManager)) := by
  refine ⟨rfl, rfl, ?_, fun s => rfl, ?_, ?_⟩
  · simp [transformedData]
  · simp [transformedData, List.lookup]
  · simp [transformedData, List.lookup]

/-- Claim C9 witness: at the concrete form values the body keys are the
eight expected ones, `skills` is absent, and `role_id` parses `"2"`
to the number 2. -/
theorem c9_post_body_fields_witness :
    (transformedData 7 exampleForm).map Prod.fst =
      ["role_listing_id", "role_id", "role_listing_desc",
        "role_listing_source", "role_listing_open", "role_listing_creator",
        "role_department", "role_location"] ∧
    "skills" ∉ (transformedData 7 exampleForm).map Prod.fst ∧
    List.lookup "role_id" (transformedData 7 exampleForm) =
      some (JsonValue.num 2) := by
  have h := c9_post_body_fields (some "hr") 7 exampleForm
  refine ⟨h.1, h.2.2.1, h.2.2.2.2.1.trans ?_⟩
  decide
